import Mathlib

/-!
Verification development for the support-ticket classification pipeline
(`Support_ticket.py`, `support_ticket.py`, `Support_ticket_st.py`).

The pipeline renders a fixed prompt template with one ticket text, sends it
to a remote text-generation endpoint, decodes the completion as JSON and
builds one tabular output row per ticket.

Modelling conventions:
  * JSON values decoded by `json.loads` are `JVal`.
  * Python operations that can raise (`in`, `[...]`, `.get`, `len`,
    `', '.join`) are modelled in `Except String`, where the `String` is an
    abbreviated rendering of the Python exception text; the exact wording of
    `TypeError` and similar messages is not load-bearing, the messages built
    by the repository itself are reproduced verbatim.
  * The remote endpoint and `json.loads` are external collaborators: the
    endpoint is an oracle giving, per call, either a raised exception message
    or a decoded response body, and `json.loads` is a parameter
    `loads : String → Option JVal` (`none` = the string is not valid JSON).
-/

/-- A JSON value as produced by Python `json.loads`: `null`, booleans,
numbers (floats are irrelevant to every path modelled here, integers
suffice), strings, arrays, and objects with string keys. -/
inductive JVal where
  | null
  | bool (b : Bool)
  | num (n : Int)
  | str (s : String)
  | arr (elems : List JVal)
  | obj (fields : List (String × JVal))

/-- Substring test used by Python `key in s` on strings (for the nonempty
keys used by the code). -/
def strContains (s pat : String) : Bool :=
  pat.isEmpty || (s.splitOn pat).length != 1

/-- Python `key in v` for a string `key`: key membership on dicts, element
membership on lists, substring on strings, `TypeError` otherwise. -/
def pyContains (key : String) : JVal → Except String Bool
  | .obj kvs => .ok (kvs.any (fun kv => kv.1 == key))
  | .arr xs => .ok (xs.any (fun x => match x with | .str s => s == key | _ => false))
  | .str s => .ok (strContains s key)
  | _ => .error "TypeError: argument is not iterable"

/-- Python `v[key]` for a string `key`: dict lookup (`KeyError` when
absent), `TypeError` on strings, lists and scalars. -/
def pySubscriptStr : JVal → String → Except String JVal
  | .obj kvs, key =>
      match kvs.lookup key with
      | some v => .ok v
      | none => .error ("KeyError: " ++ key)
  | .str _, _ => .error "TypeError: string indices must be integers"
  | .arr _, _ => .error "TypeError: list indices must be integers"
  | _, _ => .error "TypeError: object is not subscriptable"

/-- Python `v[i]` for a natural index: list element (`IndexError` when out
of range), single character on strings, `KeyError` on JSON dicts (their keys
are strings), `TypeError` on scalars. -/
def pySubscriptNat : JVal → Nat → Except String JVal
  | .arr xs, i =>
      match xs.get? i with
      | some v => .ok v
      | none => .error "IndexError: list index out of range"
  | .str s, i =>
      match s.data.get? i with
      | some c => .ok (.str (String.mk [c]))
      | none => .error "IndexError: string index out of range"
  | .obj _, _ => .error "KeyError: 0"
  | _, _ => .error "TypeError: object is not subscriptable"

/-- Python `len(v)`: length of strings, lists and dicts, `TypeError` on
scalars. -/
def pyLen : JVal → Except String Nat
  | .str s => .ok s.length
  | .arr xs => .ok xs.length
  | .obj kvs => .ok kvs.length
  | _ => .error "TypeError: object has no length"

/-- Python `v.get(key, default)`: defined only on dicts, `AttributeError`
otherwise. -/
def pyGet : JVal → String → JVal → Except String JVal
  | .obj kvs, key, dflt => .ok ((kvs.lookup key).getD dflt)
  | _, _, _ => .error "AttributeError: object has no attribute get"

/-- Extract the underlying strings of a list of JSON values; `TypeError`
as soon as an element is not a string (Python `str.join` semantics). -/
def extractStrs : List JVal → Except String (List String)
  | [] => .ok []
  | .str s :: rest =>
      match extractStrs rest with
      | .ok ss => .ok (s :: ss)
      | .error e => .error e
  | _ :: _ => .error "TypeError: sequence item: expected str instance"

/-- Python `', '.join(v)`: joins list elements (all must be strings), the
characters of a string, or the keys of a dict; `TypeError` on scalars. -/
def pyJoin : JVal → Except String String
  | .str s => .ok (String.intercalate ", " (s.data.map (fun c => String.mk [c])))
  | .arr xs =>
      match extractStrs xs with
      | .ok ss => .ok (String.intercalate ", " ss)
      | .error e => .error e
  | .obj kvs => .ok (String.intercalate ", " (kvs.map (fun kv => kv.1)))
  | _ => .error "TypeError: can only join an iterable"

/-- Outcome of one call to the remote endpoint, as seen by `send_prompt`
after `bedrock_inference.invoke_model`, `response["body"].read()` and
`json.loads` of the body: either some step raised an exception with message
`msg` (network error, authentication failure, malformed request,
endpoint-reported error, undecodable body), or the body decoded to
`response_data`. -/
inductive InvokeOutcome where
  | raise (msg : String)
  | ok (response_data : JVal)

/-- Body of the `try` block of `send_prompt` in `Support_ticket.py` after
the response body has been decoded to `response_data`: check the
`results[0].outputText` envelope, decode the completion with `json.loads`
(`loads`), and map a completion that is not valid JSON to the
error dictionary with the literal decode-failure message.  An exception
escaping this block is an `Except.error`. -/
def sendPromptTry (loads : String → Option JVal) (response_data : JVal) :
    Except String JVal := do
  let hasResults ← pyContains "results" response_data
  if hasResults then
    let results ← pySubscriptStr response_data "results"
    let n ← pyLen results
    if n > 0 then
      let result ← pySubscriptNat results 0
      let hasOutput ← pyContains "outputText" result
      if hasOutput then
        let outputVal ← pySubscriptStr result "outputText"
        match outputVal with
        | .str output_text =>
            match loads output_text with
            | some structured_output => pure structured_output
            | none => pure (JVal.obj [("error", .str "Error decoding the model's JSON response.")])
        | _ => Except.error "TypeError: the JSON object must be str, bytes or bytearray"
      else
        pure (JVal.obj [("error", .str "Invalid response format from Bedrock.")])
    else
      pure (JVal.obj [("error", .str "Invalid response format from Bedrock.")])
  else
    pure (JVal.obj [("error", .str "Invalid response format from Bedrock.")])

/-- The function `send_prompt` of `Support_ticket.py`: every exception
raised inside the `try` block (including the transport call itself) is
caught and turned into the dictionary
`\x7b"error": "Error occurred: " + str(e)\x7d`; otherwise the value
produced by the `try` block is returned.  Total by construction: it never
propagates an exception. -/
def send_prompt (loads : String → Option JVal) (outcome : InvokeOutcome) : JVal :=
  match outcome with
  | .raise e => JVal.obj [("error", .str ("Error occurred: " ++ e))]
  | .ok response_data =>
      match sendPromptTry loads response_data with
      | .ok v => v
      | .error e => JVal.obj [("error", .str ("Error occurred: " ++ e))]

/-- The `textGenerationConfig` dictionary built inside `send_prompt`
(`Support_ticket.py`); `0.0` and `1.0` are exact, so rationals model the
Python floats faithfully on every value appearing here. -/
structure TextGenerationConfig where
  temperature : ℚ
  topP : ℚ
  maxTokenCount : Nat
deriving DecidableEq

/-- The request body `send_prompt` serialises with `json.dumps` before
invoking the model. -/
structure RequestBody where
  inputText : String
  textGenerationConfig : TextGenerationConfig
deriving DecidableEq

/-- The `body` dictionary built by `send_prompt` in `Support_ticket.py`
for a given rendered prompt. -/
def requestBody (prompt_data : String) : RequestBody :=
  { inputText := prompt_data,
    textGenerationConfig := { temperature := 0, topP := 1, maxTokenCount := 1000 } }

/-- Generation configuration of the `BedrockLLM` client constructed at
module level in `support_ticket.py` (the LangChain variant):
`model_kwargs={"temperature": 0.1, "maxTokenCount": 1000}`, no `topP`. -/
structure BedrockLLMConfig where
  model_id : String
  temperature : ℚ
  maxTokenCount : Nat
deriving DecidableEq

/-- The module-level `llm` object of `support_ticket.py`. -/
def llm : BedrockLLMConfig :=
  { model_id := "amazon.titan-text-lite-v1", temperature := 1/10, maxTokenCount := 1000 }

/-- The text of the prompt template literal of `Support_ticket.py` (module
level, also verbatim in `Support_ticket_st.py` and `support_ticket.py`)
standing before its one `format` replacement field; it contains no brace. -/
def templateHead : String :=
  "\n" ++
  "You are an AI assistant designed to classify and respond to support tickets.\n" ++
  "For each ticket, perform the following tasks:\n" ++
  "1. Classify the issue into a professional category based on the content of the ticket.\n" ++
  "Categories can include but are not limited to: technical issues, hardware issues,\n" ++
  "data recovery, software issues, user error, connectivity issues, or other relevant\n" ++
  "categories based on the ticket.\n" ++
  "2. Assign relevant tags that describe the issue. Tags can include data loss,\n" ++
  "internet connectivity, slow performance, security concerns, software crashes,\n" ++
  "or anything else related to the issue at hand.\n" ++
  "3. Determine the priority based on urgency: high, medium, or low.\n" ++
  "4. Suggest an estimated resolution time. For example, 2 hours, 4 hours, 1 day, or\n" ++
  "any reasonable estimate based on the issue's complexity.\n" ++
  "5. Generate a polite and empathetic first reply that acknowledges the user's concern,\n" ++
  "offers assistance, and sets expectations.\n" ++
  "6. Analyze sentiment of the ticket: positive, negative, or neutral,\n" ++
  "based on the tone and content of the customer.\n" ++
  "\n" ++
  "Support Ticket: "

/-- The text of the prompt template literal standing after the replacement
field, still in its `str.format` escaped form: the braces of the JSON
example are doubled. -/
def templateTailRaw : String :=
  "\n" ++
  "\n" ++
  "Your response should be in the following JSON format:\n" ++
  "\x7b\x7b\n" ++
  "    \"category\": \"<category>\",\n" ++
  "    \"tags\": [\"<tag1>\", \"<tag2>\"],\n" ++
  "    \"priority\": \"<priority>\",\n" ++
  "    \"suggested_eta\": \"<time>\",\n" ++
  "    \"generated_reply\": \"<reply>\",\n" ++
  "    \"sentiment\": \"<sentiment>\"\n" ++
  "\x7d\x7d\n"

/-- The prompt template literal of `Support_ticket.py` (module level, also
verbatim in `Support_ticket_st.py` and `support_ticket.py`), transcribed
factored at its single `format` replacement field `\x7bticket_text\x7d`. -/
def template : String :=
  templateHead ++ "\x7bticket_text\x7d" ++ templateTailRaw

/-- The single replacement field of the template. -/
def placeholderChars : List Char := "\x7bticket_text\x7d".data

/-- Split a character list at the first occurrence of `ph`: the part before
and the part after, `none` when `ph` does not occur. -/
def splitFirstAux (ph : List Char) : List Char → Option (List Char × List Char)
  | [] => none
  | c :: cs =>
      if ph.isPrefixOf (c :: cs) then some ([], (c :: cs).drop ph.length)
      else
        match splitFirstAux ph cs with
        | some (a, b) => some (c :: a, b)
        | none => none

/-- The opening brace character. -/
def lbrace : Char := '\x7b'

/-- The closing brace character. -/
def rbrace : Char := '\x7d'

/-- Unescape the doubled braces of a `str.format` template segment that
contains no replacement field. -/
def unescapeAux : List Char → List Char
  | [] => []
  | [c] => [c]
  | c :: d :: rest =>
      if c = d ∧ (c = lbrace ∨ c = rbrace) then c :: unescapeAux rest
      else c :: unescapeAux (d :: rest)

/-- Python `tmpl.format(ticket_text=t)` specialised to templates with at
most one replacement field, named `ticket_text`, whose text before the
field holds no brace (true of the repository template): substitute `t` for
the field and unescape doubled braces in the rest. -/
def pyFormat (tmpl t : String) : String :=
  match splitFirstAux placeholderChars tmpl.data with
  | some (a, b) => String.mk (unescapeAux a) ++ t ++ String.mk (unescapeAux b)
  | none => String.mk (unescapeAux tmpl.data)

/-- `template.format(ticket_text=text)` as executed in `process_tickets`. -/
def render (text : String) : String := pyFormat template text

/-- The fixed instruction text standing after the ticket text in every
rendered prompt (the JSON example with its braces unescaped). -/
def promptTail : String :=
  "\n" ++
  "\n" ++
  "Your response should be in the following JSON format:\n" ++
  "\x7b\n" ++
  "    \"category\": \"<category>\",\n" ++
  "    \"tags\": [\"<tag1>\", \"<tag2>\"],\n" ++
  "    \"priority\": \"<priority>\",\n" ++
  "    \"suggested_eta\": \"<time>\",\n" ++
  "    \"generated_reply\": \"<reply>\",\n" ++
  "    \"sentiment\": \"<sentiment>\"\n" ++
  "\x7d\n"

/-- One row of the input dataset: the two columns `process_tickets` reads. -/
structure TicketRow where
  support_tick_id : String
  support_ticket_text : String

/-- The loaded input dataset: its column names and its rows.  CSV loading
itself (`pd.read_csv`) is an external collaborator; the column check of
`process_tickets` consults `columns`. -/
structure InputDF where
  columns : List String
  rows : List TicketRow

/-- One row of `generated_data` in `process_tickets`.  `tags` is always a
string (the sentinel writes the literal `'Error'`, the success branch the
result of `', '.join`); the other generated fields hold whatever JSON value
the branch put there. -/
structure OutRow where
  support_tick_id : String
  category : JVal
  tags : String
  priority : JVal
  suggested_eta : JVal
  generated_reply : JVal
  sentiment : JVal

/-- The body of the `for` loop of `process_tickets` for one row, given the
outcome of the endpoint call for this row: branch on `'error' in
ai_response`, building either the sentinel row or the row of
`.get`-with-default extractions.  `Except.error` is an exception the loop
body does not catch (the source has no handler around it). -/
def processRow (loads : String → Option JVal) (outcome : InvokeOutcome)
    (row : TicketRow) : Except String OutRow := do
  let ai_response := send_prompt loads outcome
  let hasError ← pyContains "error" ai_response
  if hasError then do
    let errVal ← pySubscriptStr ai_response "error"
    pure { support_tick_id := row.support_tick_id,
           category := .str "Error",
           tags := "Error",
           priority := .str "Error",
           suggested_eta := .str "Error",
           generated_reply := errVal,
           sentiment := .str "Error" }
  else do
    let category ← pyGet ai_response "category" (.str "Unknown")
    let tagsVal ← pyGet ai_response "tags" (.arr [])
    let tags ← pyJoin tagsVal
    let priority ← pyGet ai_response "priority" (.str "Unknown")
    let suggested_eta ← pyGet ai_response "suggested_eta" (.str "Unknown")
    let generated_reply ← pyGet ai_response "generated_reply" (.str "No reply generated")
    let sentiment ← pyGet ai_response "sentiment" (.str "Unknown")
    pure { support_tick_id := row.support_tick_id,
           category := category,
           tags := tags,
           priority := priority,
           suggested_eta := suggested_eta,
           generated_reply := generated_reply,
           sentiment := sentiment }

/-- The `for index, row in df.iterrows()` loop of `process_tickets`:
renders the prompt of each row, consults the endpoint oracle (`oracle i
prompt` is the outcome of the call made at loop index `i`), and accumulates
`generated_data` in input order.  An uncaught exception in one iteration
aborts the whole loop. -/
def processLoop (loads : String → Option JVal)
    (oracle : Nat → String → InvokeOutcome) :
    Nat → List TicketRow → Except String (List OutRow)
  | _, [] => .ok []
  | i, row :: rest => do
      let prompt := render row.support_ticket_text
      let out ← processRow loads (oracle i prompt) row
      let others ← processLoop loads oracle (i + 1) rest
      pure (out :: others)

/-- Result of a `process_tickets` run: the early `return` after the column
check (no inference call is made, nothing is written), an exception that
escaped the loop (nothing is written), or the list of rows written to the
output CSV. -/
inductive ProcResult where
  | configError
  | raised (msg : String)
  | ok (rows : List OutRow)

/-- The function `process_tickets` of `Support_ticket.py` over an
already-loaded dataset: the required-column check, then the per-row loop;
`verbose` only prints and is omitted. -/
def process_tickets (loads : String → Option JVal)
    (oracle : Nat → String → InvokeOutcome) (df : InputDF) : ProcResult :=
  if !(df.columns.contains "support_tick_id")
      || !(df.columns.contains "support_ticket_text") then
    ProcResult.configError
  else
    match processLoop loads oracle 0 df.rows with
    | .ok rows => .ok rows
    | .error e => .raised e

/-- The success envelope of the remote inference boundary (spec section 6):
`\x7b"results": [ \x7b"outputText": completion \x7d ] \x7d` for a completion
string `s`.  Used to drive the model of `send_prompt` at a given
completion. -/
def mkEnvelope (s : String) : JVal :=
  .obj [("results", .arr [.obj [("outputText", .str s)]])]

/-- The sentinel row literal of the `if 'error' in ai_response` branch of
`process_tickets`: every classification field is the string `'Error'` and
`generated_reply` is the value found under the `'error'` key. -/
def errorRow (tick : String) (reply : JVal) : OutRow :=
  { support_tick_id := tick,
    category := .str "Error",
    tags := "Error",
    priority := .str "Error",
    suggested_eta := .str "Error",
    generated_reply := reply,
    sentiment := .str "Error" }

/-- A fake `json.loads` on whose inputs decoding always fails. -/
def loadsNone : String → Option JVal := fun _ => none

/-- A fake `json.loads` decoding exactly one string to one value and
failing on every other string. -/
def singleLoads (key : String) (v : JVal) : String → Option JVal :=
  fun s => if s = key then some v else none

/-- Whether `', '.join` succeeds on this value (Python join semantics:
strings, lists of strings and dicts join, everything else raises). -/
def joinSafe : JVal → Bool
  | .str _ => true
  | .arr xs => xs.all fun x => match x with | .str _ => true | _ => false
  | .obj _ => true
  | _ => false

/-- A decoded endpoint response on which the row-building branch of
`process_tickets` raises no exception: a JSON object that either carries an
`'error'` key (the sentinel branch never raises) or whose `'tags'` member,
when present, survives `', '.join`. -/
def benignResponse : JVal → Bool
  | .obj kvs =>
      kvs.any (fun kv => kv.1 == "error") || joinSafe ((kvs.lookup "tags").getD (.arr []))
  | _ => false

/-- The six classification fields of an output row, without the ticket id:
the tuple downstream reporting compares when distinguishing failure
sentinels. -/
def recordFields (r : OutRow) : JVal × String × JVal × JVal × JVal × JVal :=
  (r.category, r.tags, r.priority, r.suggested_eta, r.generated_reply, r.sentiment)

/-- A decoded completion object carrying all six expected classification
fields and an `'error'` key besides. -/
def c10obj : List (String × JVal) :=
  [("category", .str "hardware issues"), ("tags", .arr [.str "boot failure"]),
   ("priority", .str "high"), ("suggested_eta", .str "2 hours"),
   ("generated_reply", .str "We are sorry"), ("sentiment", .str "negative"),
   ("error", .str "boom")]

/-- The string a JSON value holds, when it is a string (used to state what
`', '.join` produces on a list of strings). -/
def strOf : JVal → String
  | .str s => s
  | _ => ""

/-- The tag strings of a (possibly absent) `'tags'` member that is an array
of strings; empty for an absent member (the `.get` default `[]`). -/
def tagStrings : Option JVal → List String
  | some (.arr xs) => xs.map strOf
  | _ => []

/-- Whether a (possibly absent) `'tags'` member has the shape the template
asks the model for: absent, or an array of strings. -/
def tagsOk : Option JVal → Bool
  | none => true
  | some (.arr xs) => xs.all fun x => match x with | .str _ => true | _ => false
  | some _ => false

/-- A decoded completion with the six expected fields and no error key. -/
def goodObj : List (String × JVal) :=
  [("category", .str "connectivity issues"), ("tags", .arr [.str "wifi"]),
   ("priority", .str "low"), ("suggested_eta", .str "4 hours"),
   ("generated_reply", .str "We can help"), ("sentiment", .str "negative")]

/-- A decoded completion missing only the `'tags'` field. -/
def fiveFieldsObj : List (String × JVal) :=
  [("category", .str "connectivity issues"),
   ("priority", .str "low"), ("suggested_eta", .str "4 hours"),
   ("generated_reply", .str "We can help"), ("sentiment", .str "negative")]

/-- An endpoint oracle whose first call fails at transport level and whose
later calls return the completion `"good"`. -/
def c1oracle : Nat → String → InvokeOutcome :=
  fun i _ => if i = 0 then .raise "timeout" else .ok (mkEnvelope "good")

/-- An endpoint oracle whose first call returns the completion `"3"`
(valid JSON, not an object) and whose later calls fail at transport
level. -/
def c1badOracle : Nat → String → InvokeOutcome :=
  fun i _ => if i = 0 then .ok (mkEnvelope "3") else .raise "timeout"

/-- A two-ticket input dataset with both required columns. -/
def c1df : InputDF :=
  { columns := ["support_tick_id", "support_ticket_text"],
    rows := [{ support_tick_id := "T1", support_ticket_text := "boot issue" },
             { support_tick_id := "T2", support_ticket_text := "slow wifi" }] }

/-- A decoded completion that is a JSON object whose only key is `'error'`,
bound to the exact decode-failure message `send_prompt` itself uses. -/
def c9obj : List (String × JVal) :=
  [("error", .str "Error decoding the model's JSON response.")]

/-- A nonempty list is a `isPrefixOf` of itself followed by anything. -/
lemma isPrefixOf_append_self (l t : List Char) : l.isPrefixOf (l ++ t) := by
  rw [List.isPrefixOf_iff_prefix]; exact List.prefix_append l t

/-- Splitting at the first occurrence, when the text starts with the
pattern itself. -/
lemma splitFirstAux_self (ph ys : List Char) (h : ph ≠ []) :
    splitFirstAux ph (ph ++ ys) = some ([], ys) := by
  obtain ⟨c, ph', rfl⟩ := List.exists_cons_of_ne_nil h
  show splitFirstAux (c :: ph') (c :: (ph' ++ ys)) = some ([], ys)
  rw [splitFirstAux]
  have hpre : (c :: ph').isPrefixOf (c :: ph' ++ ys) := isPrefixOf_append_self _ _
  simp only [List.cons_append] at hpre
  simp [hpre, List.drop_left]

/-- Splitting at the first occurrence skips over a block that does not
contain the first character of the pattern. -/
lemma splitFirstAux_append_not_mem (p : Char) (ph' xs ys : List Char) (h : p ∉ xs) :
    splitFirstAux (p :: ph') (xs ++ ys) =
      Option.map (fun ab => (xs ++ ab.1, ab.2)) (splitFirstAux (p :: ph') ys) := by
  induction xs with
  | nil =>
      simp only [List.nil_append]
      cases hy : splitFirstAux (p :: ph') ys <;> simp
  | cons c cs ih =>
      have hcp : ¬ (p = c) := fun hpc => h (hpc ▸ List.mem_cons_self c cs)
      have hcs : p ∉ cs := fun hm => h (List.mem_cons_of_mem c hm)
      rw [List.cons_append, splitFirstAux]
      have hnot : ((p :: ph').isPrefixOf (c :: (cs ++ ys))) = false := by
        simp [List.isPrefixOf, beq_iff_eq, hcp]
      rw [hnot]
      simp only [Bool.false_eq_true, if_false]
      rw [ih hcs]
      cases hy : splitFirstAux (p :: ph') ys with
      | none => simp
      | some ab => simp

/-- The replacement field starts with an opening brace. -/
lemma placeholder_cons : placeholderChars = lbrace :: "ticket_text\x7d".data := by decide

set_option maxRecDepth 40000 in
/-- The template text before the replacement field holds no opening brace. -/
lemma lbrace_not_mem_templateHead : lbrace ∉ templateHead.data := by decide

set_option maxRecDepth 40000 in
/-- The template text before the replacement field holds no doubled brace
to unescape. -/
lemma unescape_templateHead : unescapeAux templateHead.data = templateHead.data := by decide

set_option maxRecDepth 40000 in
/-- Unescaping the doubled braces of the template text after the
replacement field yields the fixed instruction tail. -/
lemma unescape_templateTail : unescapeAux templateTailRaw.data = promptTail.data := by decide

/-- The template splits at its replacement field into head and raw tail. -/
lemma template_split :
    splitFirstAux placeholderChars template.data =
      some (templateHead.data, templateTailRaw.data) := by
  have hdata : template.data =
      templateHead.data ++ (placeholderChars ++ templateTailRaw.data) := by
    simp [template, placeholderChars, String.data_append]
  rw [hdata, placeholder_cons,
    splitFirstAux_append_not_mem _ _ _ _ lbrace_not_mem_templateHead,
    ← placeholder_cons,
    splitFirstAux_self _ _ (by decide)]
  simp

/-- Rendering a prompt is exactly the fixed instruction head, the ticket
text, and the fixed instruction tail. -/
lemma render_eq (t : String) : render t = templateHead ++ t ++ promptTail := by
  rw [render, pyFormat, template_split]
  show String.mk (unescapeAux templateHead.data) ++ t ++
      String.mk (unescapeAux templateTailRaw.data) = _
  rw [unescape_templateHead, unescape_templateTail]

/-- C6: for every ticket text string, the rendered prompt contains that
text as a literal substring, and the rest of the rendered prompt is exactly
the fixed instruction template with only the placeholder replaced (the
instruction block before the text and the JSON-format block after it, with
the doubled template braces unescaped); `render` is a pure function of its
input, hence deterministic and side-effect free. -/
theorem render_template_roundtrip (t : String) :
    render t = templateHead ++ t ++ promptTail ∧
    ∃ a b, render t = a ++ t ++ b :=
  ⟨render_eq t, templateHead, promptTail, render_eq t⟩

/-- A transport-level exception is returned as the error dictionary with
the caught message appended to the fixed text. -/
lemma send_prompt_raise (loads : String → Option JVal) (e : String) :
    send_prompt loads (.raise e) = JVal.obj [("error", .str ("Error occurred: " ++ e))] := rfl

/-- On the success envelope, `send_prompt` is decided entirely by
`json.loads` on the completion. -/
lemma sendPromptTry_envelope (loads : String → Option JVal) (s : String) :
    sendPromptTry loads (mkEnvelope s) =
      (match loads s with
       | some v => Except.ok v
       | none => Except.ok (JVal.obj [("error", .str "Error decoding the model's JSON response.")])) := rfl

/-- A completion that is not valid JSON yields the decode-failure error
dictionary. -/
lemma send_prompt_envelope_none (loads : String → Option JVal) (s : String)
    (h : loads s = none) :
    send_prompt loads (.ok (mkEnvelope s)) =
      JVal.obj [("error", .str "Error decoding the model's JSON response.")] := by
  unfold send_prompt
  dsimp only
  rw [sendPromptTry_envelope, h]

/-- A completion that decodes yields the decoded value itself. -/
lemma send_prompt_envelope_some (loads : String → Option JVal) (s : String) (v : JVal)
    (h : loads s = some v) :
    send_prompt loads (.ok (mkEnvelope s)) = v := by
  unfold send_prompt
  dsimp only
  rw [sendPromptTry_envelope, h]

/-- Whenever `send_prompt` hands the loop an error dictionary, the loop
body builds the sentinel row carrying the dictionary's message. -/
lemma processRow_error_obj (loads : String → Option JVal) (outcome : InvokeOutcome)
    (row : TicketRow) (m : JVal)
    (h : send_prompt loads outcome = JVal.obj [("error", m)]) :
    processRow loads outcome row = .ok (errorRow row.support_tick_id m) := by
  unfold processRow
  rw [h]
  rfl

/-- When a key is bound in an association list, `any` finds it. -/
lemma any_of_lookup_some {kvs : List (String × JVal)} {key : String} {v : JVal}
    (h : kvs.lookup key = some v) : (kvs.any fun kv => kv.1 == key) = true := by
  induction kvs with
  | nil => simp [List.lookup] at h
  | cons kv rest ih =>
      rw [List.lookup] at h
      by_cases hk : key = kv.1
      · subst hk; simp [List.any_cons]
      · have hk1 : (key == kv.1) = false := beq_eq_false_iff_ne.mpr hk
        have hk2 : (kv.1 == key) = false := beq_eq_false_iff_ne.mpr (Ne.symm hk)
        rw [hk1] at h
        simp only [List.any_cons, hk2, Bool.false_or]
        exact ih h

/-- C4: for every completion string that is not valid JSON, the resulting
record is the parse-failure sentinel: category, tags, priority,
suggested_eta and sentiment all `"Error"`, and generated_reply carrying the
decode-failure description built by `send_prompt`. -/
theorem malformed_json_yields_error_sentinel (loads : String → Option JVal)
    (s : String) (row : TicketRow) (h : loads s = none) :
    processRow loads (.ok (mkEnvelope s)) row =
      .ok (errorRow row.support_tick_id (.str "Error decoding the model's JSON response.")) :=
  processRow_error_obj loads _ row _ (send_prompt_envelope_none loads s h)

/-- Witness for C4 at the concrete completion `"not json"` under a decode
function failing on it. -/
theorem malformed_json_yields_error_sentinel_witness :
    processRow loadsNone (.ok (mkEnvelope "not json"))
      { support_tick_id := "T1", support_ticket_text := "x" } =
      .ok (errorRow "T1" (.str "Error decoding the model's JSON response.")) :=
  malformed_json_yields_error_sentinel loadsNone "not json" _ rfl

/-- C10: success and failure are discriminated solely by presence of the
key `'error'` in the parsed completion: whenever the completion decodes to
a JSON object binding `'error'` to a value `v`, the batch row is the full
Error sentinel with generated_reply `v` — even when all six classification
fields are present in the object (the witness exercises exactly that). -/
theorem error_key_overrides_fields (loads : String → Option JVal) (s : String)
    (kvs : List (String × JVal)) (v : JVal) (row : TicketRow)
    (hl : loads s = some (.obj kvs)) (hv : kvs.lookup "error" = some v) :
    processRow loads (.ok (mkEnvelope s)) row = .ok (errorRow row.support_tick_id v) := by
  unfold processRow
  rw [send_prompt_envelope_some loads s _ hl]
  show (do
    let hasError ← pyContains "error" (JVal.obj kvs)
    if hasError then do
      let errVal ← pySubscriptStr (JVal.obj kvs) "error"
      pure (errorRow row.support_tick_id errVal)
    else _) = Except.ok (errorRow row.support_tick_id v)
  rw [pyContains]
  rw [any_of_lookup_some hv]
  show (do
    let errVal ← pySubscriptStr (JVal.obj kvs) "error"
    pure (errorRow row.support_tick_id errVal) : Except String OutRow) = _
  rw [pySubscriptStr, hv]
  rfl

/-- Witness for C10: an object with all six classification fields present
and an `'error'` key still produces the full Error sentinel row. -/
theorem error_key_overrides_fields_witness :
    processRow (singleLoads "c10" (.obj c10obj)) (.ok (mkEnvelope "c10"))
      { support_tick_id := "T1", support_ticket_text := "x" } =
      .ok (errorRow "T1" (.str "boom")) :=
  error_key_overrides_fields _ "c10" c10obj _ _ rfl rfl

/-- C5: the inference client never raises uncaught — a transport-level
exception with message `e` becomes the error dictionary carrying the
human-readable text `"Error occurred: " ++ e`; the batch processor turns it
into a sentinel row whose generated_reply contains `e` as a substring; and
an endpoint response missing the expected result envelope likewise becomes
an error dictionary, not an exception. -/
theorem transport_failure_sentinel_row (loads : String → Option JVal) (e : String)
    (row : TicketRow) :
    send_prompt loads (.raise e) = JVal.obj [("error", .str ("Error occurred: " ++ e))] ∧
    processRow loads (.raise e) row =
      .ok (errorRow row.support_tick_id (.str ("Error occurred: " ++ e))) ∧
    (∃ a b, "Error occurred: " ++ e = a ++ e ++ b) ∧
    send_prompt loads (.ok (JVal.obj [])) =
      JVal.obj [("error", .str "Invalid response format from Bedrock.")] := by
  refine ⟨rfl, processRow_error_obj loads _ row _ rfl, ⟨"Error occurred: ", "", by simp⟩, rfl⟩

/-- C8: a dataset missing a required column makes `process_tickets` report
the fatal configuration error and return before the loop: the result is
`configError` whatever the endpoint and decoder would have done (so no
inference call is consulted), and no output rows are produced. -/
theorem missing_required_column_aborts (loads loads2 : String → Option JVal)
    (oracle oracle2 : Nat → String → InvokeOutcome) (df : InputDF)
    (h : df.columns.contains "support_tick_id" = false ∨
         df.columns.contains "support_ticket_text" = false) :
    process_tickets loads oracle df = ProcResult.configError ∧
    process_tickets loads oracle df = process_tickets loads2 oracle2 df := by
  unfold process_tickets
  rcases h with h | h <;> simp at h <;> simp [h]

/-- Witness for C8 at a dataset lacking the `support_tick_id` column. -/
theorem missing_required_column_aborts_witness :
    process_tickets loadsNone (fun _ _ => .raise "network down")
      { columns := ["support_ticket_text"],
        rows := [{ support_tick_id := "T1", support_ticket_text := "hello" }] } =
      ProcResult.configError :=
  (missing_required_column_aborts loadsNone loadsNone (fun _ _ => .raise "network down")
    (fun _ _ => .raise "network down") _ (Or.inl (by decide))).1

/-- C7 (amended): every invocation of the Bedrock-runtime pipeline
(`Support_ticket.py`) uses the fixed generation configuration temperature
0.0, topP 1.0, maxTokenCount 1000, identical for every rendered prompt;
the LangChain variant (`support_ticket.py`) likewise fixes its
configuration for all tickets but at temperature 0.1 with the same
1000-token cap. -/
theorem fixed_generation_config (p q : String) :
    (requestBody p).textGenerationConfig =
      { temperature := 0, topP := 1, maxTokenCount := 1000 } ∧
    (requestBody p).textGenerationConfig = (requestBody q).textGenerationConfig ∧
    llm.temperature = 1 / 10 ∧ llm.maxTokenCount = 1000 :=
  ⟨rfl, rfl, rfl, rfl⟩

/-- Counterexample to C7 as stated: the inference client of
`support_ticket.py` is configured with temperature 0.1, not 0.0, so not
every inference invocation in the repository uses temperature exactly
0.0. -/
theorem langchain_temperature_not_zero :
    llm.temperature = 1 / 10 ∧ llm.temperature ≠ 0 := by
  constructor
  · rfl
  · show (1 / 10 : ℚ) ≠ 0
    norm_num

/-- `extractStrs` succeeds exactly on lists of strings, producing their
underlying strings. -/
lemma extractStrs_all_str (xs : List JVal)
    (h : (xs.all fun x => match x with | .str _ => true | _ => false) = true) :
    extractStrs xs = .ok (xs.map strOf) := by
  induction xs with
  | nil => rfl
  | cons x rest ih =>
      rw [List.all_cons, Bool.and_eq_true] at h
      obtain ⟨hx, hrest⟩ := h
      cases x with
      | str s => rw [extractStrs, ih hrest]; rfl
      | null => simp at hx
      | bool b => simp at hx
      | num n => simp at hx
      | arr a => simp at hx
      | obj o => simp at hx

/-- Joining the `.get`-defaulted tags of a well-shaped `'tags'` member
yields the comma-separated tag strings (empty for an absent member). -/
lemma pyJoin_tags (o : Option JVal) (h : tagsOk o = true) :
    pyJoin (o.getD (.arr [])) = .ok (String.intercalate ", " (tagStrings o)) := by
  match o with
  | none => rfl
  | some (.arr xs) =>
      show pyJoin (.arr xs) = _
      rw [pyJoin, extractStrs_all_str xs (by simpa [tagsOk] using h)]
      rfl
  | some (.str s) => simp [tagsOk] at h
  | some .null => simp [tagsOk] at h
  | some (.bool b) => simp [tagsOk] at h
  | some (.num n) => simp [tagsOk] at h
  | some (.obj kvs) => simp [tagsOk] at h

/-- `', '.join` succeeds on every join-safe value. -/
lemma joinSafe_join_ok (v : JVal) (h : joinSafe v = true) : ∃ s, pyJoin v = .ok s := by
  match v with
  | .str s => exact ⟨_, rfl⟩
  | .arr xs =>
      refine ⟨String.intercalate ", " (xs.map strOf), ?_⟩
      rw [pyJoin, extractStrs_all_str xs (by simpa [joinSafe] using h)]
  | .obj kvs => exact ⟨_, rfl⟩
  | .null => simp [joinSafe] at h
  | .bool b => simp [joinSafe] at h
  | .num n => simp [joinSafe] at h

/-- When `any` finds a key, `lookup` binds it. -/
lemma lookup_some_of_any {kvs : List (String × JVal)} {key : String}
    (h : (kvs.any fun kv => kv.1 == key) = true) : ∃ v, kvs.lookup key = some v := by
  induction kvs with
  | nil => simp at h
  | cons kv rest ih =>
      rw [List.any_cons] at h
      rw [List.lookup]
      by_cases hk : key = kv.1
      · have hb : (key == kv.1) = true := beq_iff_eq.mpr hk
        rw [hb]
        exact ⟨kv.2, rfl⟩
      · have hbf : (key == kv.1) = false := beq_eq_false_iff_ne.mpr hk
        have hbf2 : (kv.1 == key) = false := beq_eq_false_iff_ne.mpr (Ne.symm hk)
        rw [hbf]
        rw [hbf2, Bool.false_or] at h
        exact ih h

/-- The success branch of the loop body: on a decoded object without an
`'error'` key, the row is the `.get`-with-default extraction, pending only
the join of the tags. -/
lemma processRow_obj_no_error (loads : String → Option JVal) (outcome : InvokeOutcome)
    (row : TicketRow) (kvs : List (String × JVal))
    (hv : send_prompt loads outcome = .obj kvs)
    (hne : (kvs.any fun kv => kv.1 == "error") = false) :
    processRow loads outcome row = (do
      let tags ← pyJoin ((kvs.lookup "tags").getD (.arr []))
      Except.ok
        { support_tick_id := row.support_tick_id,
          category := (kvs.lookup "category").getD (.str "Unknown"),
          tags := tags,
          priority := (kvs.lookup "priority").getD (.str "Unknown"),
          suggested_eta := (kvs.lookup "suggested_eta").getD (.str "Unknown"),
          generated_reply := (kvs.lookup "generated_reply").getD (.str "No reply generated"),
          sentiment := (kvs.lookup "sentiment").getD (.str "Unknown") }) := by
  unfold processRow
  rw [hv]
  show (do
      let hasError ← pyContains "error" (JVal.obj kvs)
      if hasError then do
        let errVal ← pySubscriptStr (JVal.obj kvs) "error"
        pure (errorRow row.support_tick_id errVal)
      else do
        let category ← pyGet (JVal.obj kvs) "category" (JVal.str "Unknown")
        let tagsVal ← pyGet (JVal.obj kvs) "tags" (JVal.arr [])
        let tags ← pyJoin tagsVal
        let priority ← pyGet (JVal.obj kvs) "priority" (JVal.str "Unknown")
        let suggested_eta ← pyGet (JVal.obj kvs) "suggested_eta" (JVal.str "Unknown")
        let generated_reply ← pyGet (JVal.obj kvs) "generated_reply" (JVal.str "No reply generated")
        let sentiment ← pyGet (JVal.obj kvs) "sentiment" (JVal.str "Unknown")
        pure { support_tick_id := row.support_tick_id, category := category, tags := tags,
               priority := priority, suggested_eta := suggested_eta,
               generated_reply := generated_reply, sentiment := sentiment }) = _
  rw [pyContains, hne]
  rfl

/-- The sentinel branch of the loop body, for any decoded object binding an
`'error'` key. -/
lemma processRow_error_key (loads : String → Option JVal) (outcome : InvokeOutcome)
    (row : TicketRow) (kvs : List (String × JVal)) (v : JVal)
    (hv : send_prompt loads outcome = .obj kvs)
    (hl : kvs.lookup "error" = some v) :
    processRow loads outcome row = .ok (errorRow row.support_tick_id v) := by
  unfold processRow
  rw [hv]
  show (do
    let hasError ← pyContains "error" (JVal.obj kvs)
    if hasError then do
      let errVal ← pySubscriptStr (JVal.obj kvs) "error"
      pure (errorRow row.support_tick_id errVal)
    else _) = Except.ok (errorRow row.support_tick_id v)
  rw [pyContains]
  rw [any_of_lookup_some hl]
  show (do
    let errVal ← pySubscriptStr (JVal.obj kvs) "error"
    pure (errorRow row.support_tick_id errVal) : Except String OutRow) = _
  rw [pySubscriptStr, hl]
  rfl

/-- Full success-branch characterisation: on a decoded object without an
`'error'` key whose tags are well shaped, the row is exactly the
`.get`-with-default extraction, each absent field filled with its
documented default. -/
lemma processRow_defaults (loads : String → Option JVal) (outcome : InvokeOutcome)
    (row : TicketRow) (kvs : List (String × JVal))
    (hv : send_prompt loads outcome = .obj kvs)
    (hne : (kvs.any fun kv => kv.1 == "error") = false)
    (htags : tagsOk (kvs.lookup "tags") = true) :
    processRow loads outcome row = .ok
      { support_tick_id := row.support_tick_id,
        category := (kvs.lookup "category").getD (.str "Unknown"),
        tags := String.intercalate ", " (tagStrings (kvs.lookup "tags")),
        priority := (kvs.lookup "priority").getD (.str "Unknown"),
        suggested_eta := (kvs.lookup "suggested_eta").getD (.str "Unknown"),
        generated_reply := (kvs.lookup "generated_reply").getD (.str "No reply generated"),
        sentiment := (kvs.lookup "sentiment").getD (.str "Unknown") } := by
  rw [processRow_obj_no_error loads outcome row kvs hv hne, pyJoin_tags _ htags]
  rfl

/-- The loop body raises no exception on any benign decoded response, and
keeps the ticket id of its row. -/
lemma processRow_benign (loads : String → Option JVal) (outcome : InvokeOutcome)
    (row : TicketRow)
    (h : benignResponse (send_prompt loads outcome) = true) :
    ∃ out, processRow loads outcome row = .ok out ∧
      out.support_tick_id = row.support_tick_id := by
  cases hv : send_prompt loads outcome with
  | obj kvs =>
      rw [hv, benignResponse] at h
      by_cases hany : (kvs.any fun kv => kv.1 == "error") = true
      · obtain ⟨v, hl⟩ := lookup_some_of_any hany
        exact ⟨_, processRow_error_key loads outcome row kvs v hv hl, rfl⟩
      · have hne : (kvs.any fun kv => kv.1 == "error") = false := by
          revert hany; cases kvs.any fun kv => kv.1 == "error" <;> simp
        have hjoin : joinSafe ((kvs.lookup "tags").getD (.arr [])) = true := by
          rw [hne, Bool.false_or] at h
          exact h
        obtain ⟨s, hs⟩ := joinSafe_join_ok _ hjoin
        rw [processRow_obj_no_error loads outcome row kvs hv hne, hs]
        exact ⟨_, rfl, rfl⟩
  | null => rw [hv] at h; simp [benignResponse] at h
  | bool b => rw [hv] at h; simp [benignResponse] at h
  | num n => rw [hv] at h; simp [benignResponse] at h
  | str s => rw [hv] at h; simp [benignResponse] at h
  | arr xs => rw [hv] at h; simp [benignResponse] at h

/-- When every call outcome is benign, the loop returns one row per ticket,
in input order (same ticket ids, same order). -/
lemma processLoop_benign (loads : String → Option JVal)
    (oracle : Nat → String → InvokeOutcome) :
    ∀ (rows : List TicketRow) (k : Nat),
    (∀ i (hi : i < rows.length),
      benignResponse (send_prompt loads
        (oracle (k + i) (render (rows.get ⟨i, hi⟩).support_ticket_text))) = true) →
    ∃ out, processLoop loads oracle k rows = .ok out ∧
      out.map (fun r => r.support_tick_id) = rows.map (fun r => r.support_tick_id) := by
  intro rows
  induction rows with
  | nil => exact fun k hb => ⟨[], rfl, rfl⟩
  | cons r rest ih =>
      intro k hb
      have h0 : benignResponse (send_prompt loads
          (oracle (k + 0) (render r.support_ticket_text))) = true := hb 0 (by simp)
      rw [Nat.add_zero] at h0
      obtain ⟨o1, ho1, hid⟩ := processRow_benign loads _ r h0
      obtain ⟨os, hos, hmap⟩ := ih (k + 1) (fun i hi => by
        have hstep : benignResponse (send_prompt loads
            (oracle (k + (i + 1)) (render (rest.get ⟨i, hi⟩).support_ticket_text))) = true :=
          hb (i + 1) (by simpa using Nat.succ_lt_succ hi)
        rw [show k + (i + 1) = (k + 1) + i by omega] at hstep
        exact hstep)
      refine ⟨o1 :: os, ?_, ?_⟩
      · show (do
          let out ← processRow loads (oracle k (render r.support_ticket_text)) r
          let others ← processLoop loads oracle (k + 1) rest
          pure (out :: others)) = Except.ok (o1 :: os)
        rw [ho1, hos]
        rfl
      · simp [hid, hmap]

/-- C1 (amended): for every input dataset with the required columns and
every sequence of per-call outcomes whose decoded responses are benign
(a JSON object carrying an error key, or one whose tags survive the join),
the batch processor returns exactly one output row per input ticket, in
input order; transport failures and JSON-decode failures are always benign,
so any number of failed inference calls or failed parses never drops a row
and never aborts the batch. -/
theorem row_count_preserved (loads : String → Option JVal)
    (oracle : Nat → String → InvokeOutcome) (cols : List String) (rows : List TicketRow)
    (h1 : cols.contains "support_tick_id" = true)
    (h2 : cols.contains "support_ticket_text" = true)
    (hb : ∀ i (hi : i < rows.length),
      benignResponse (send_prompt loads
        (oracle i (render (rows.get ⟨i, hi⟩).support_ticket_text))) = true) :
    (∀ e, benignResponse (send_prompt loads (.raise e)) = true) ∧
    (∀ s, loads s = none → benignResponse (send_prompt loads (.ok (mkEnvelope s))) = true) ∧
    ∃ out, process_tickets loads oracle { columns := cols, rows := rows } = ProcResult.ok out ∧
      out.map (fun r => r.support_tick_id) = rows.map (fun r => r.support_tick_id) ∧
      out.length = rows.length := by
  refine ⟨fun e => rfl, fun s hs => ?_, ?_⟩
  · rw [send_prompt_envelope_none loads s hs]; rfl
  · obtain ⟨out, hout, hmap⟩ := processLoop_benign loads oracle rows 0 (fun i hi => by
      rw [Nat.zero_add]; exact hb i hi)
    refine ⟨out, ?_, hmap, ?_⟩
    · unfold process_tickets
      have hcond : (!(cols.contains "support_tick_id")
          || !(cols.contains "support_ticket_text")) = false := by
        rw [h1, h2]; rfl
      rw [hcond, hout]
      rfl
    · have hlen := congrArg List.length hmap
      simpa using hlen

/-- Witness for C1 on a two-ticket batch whose first call fails at
transport level and whose second returns a fully-formed completion. -/
theorem row_count_preserved_witness :
    (∀ e, benignResponse (send_prompt (singleLoads "good" (.obj goodObj)) (.raise e)) = true) ∧
    (∀ s, singleLoads "good" (.obj goodObj) s = none →
      benignResponse (send_prompt (singleLoads "good" (.obj goodObj)) (.ok (mkEnvelope s))) = true) ∧
    ∃ out, process_tickets (singleLoads "good" (.obj goodObj)) c1oracle c1df = ProcResult.ok out ∧
      out.map (fun r => r.support_tick_id) = c1df.rows.map (fun r => r.support_tick_id) ∧
      out.length = c1df.rows.length :=
  row_count_preserved (singleLoads "good" (.obj goodObj)) c1oracle _ _ rfl rfl
    (by
      intro i hi
      have hi2 : i < 2 := by simpa [c1df] using hi
      interval_cases i <;> rfl)

/-- Counterexample to C1 as stated: on a two-ticket batch whose first
completion is `"3"` (valid JSON, not an object), the loop raises an
uncaught `TypeError` at the first row, the run aborts, the second ticket is
never processed and no output rows are produced — not two rows. -/
theorem batch_aborted_by_nonobject_completion :
    process_tickets (singleLoads "3" (.num 3)) c1badOracle c1df =
      ProcResult.raised "TypeError: argument is not iterable" := rfl

/-- Counterexample to C2 as stated: the completion `"3"` (valid JSON, not
an object) makes the row computation raise an uncaught `TypeError` at the
membership test, and a completion decoding to an object whose `tags` is a
number makes `', '.join` raise — in both cases no `ClassificationRecord` is
produced. -/
theorem parse_nonobject_raises :
    processRow (singleLoads "3" (.num 3)) (.ok (mkEnvelope "3"))
      { support_tick_id := "T1", support_ticket_text := "x" } =
      .error "TypeError: argument is not iterable" ∧
    processRow (singleLoads "c2" (.obj [("tags", .num 5)])) (.ok (mkEnvelope "c2"))
      { support_tick_id := "T2", support_ticket_text := "y" } =
      .error "TypeError: can only join an iterable" := ⟨rfl, rfl⟩

/-- C2 (amended): the parse stage is total on every completion that is
either not valid JSON or decodes to a benign JSON object (one with an error
key, or whose tags member — when present — survives the join): such a
completion always yields a record, with no unrecovered error. -/
theorem parse_stage_total_on_objects (loads : String → Option JVal) (s : String)
    (row : TicketRow)
    (h : loads s = none ∨
      ∃ kvs, loads s = some (.obj kvs) ∧ benignResponse (.obj kvs) = true) :
    ∃ out, processRow loads (.ok (mkEnvelope s)) row = .ok out := by
  rcases h with h | ⟨kvs, hl, hbk⟩
  · exact ⟨_, processRow_error_obj loads _ row _ (send_prompt_envelope_none loads s h)⟩
  · have hv := send_prompt_envelope_some loads s _ hl
    obtain ⟨out, ho, _⟩ := processRow_benign loads _ row (by rw [hv]; exact hbk)
    exact ⟨out, ho⟩

/-- Witness for C2 at the non-JSON completion `"garbage"`. -/
theorem parse_stage_total_on_objects_witness :
    ∃ out, processRow loadsNone (.ok (mkEnvelope "garbage"))
      { support_tick_id := "T1", support_ticket_text := "x" } = .ok out :=
  parse_stage_total_on_objects loadsNone "garbage" _ (Or.inl rfl)

/-- C3 (amended): when the completion parses as a JSON object that does not
carry an `'error'` key and whose `'tags'` member, when present, is an array
of strings, each absent field among the six is filled with its documented
default — category `"Unknown"`, tags the empty join, priority `"Unknown"`,
suggested_eta `"Unknown"`, generated_reply `"No reply generated"`,
sentiment `"Unknown"` — each present field is taken from the object, and
the record is not the error sentinel; in particular an absent `'tags'`
joins to the empty string. -/
theorem absent_fields_filled_with_defaults (loads : String → Option JVal) (s : String)
    (kvs : List (String × JVal)) (row : TicketRow)
    (hl : loads s = some (.obj kvs))
    (hne : (kvs.any fun kv => kv.1 == "error") = false)
    (htags : tagsOk (kvs.lookup "tags") = true) :
    processRow loads (.ok (mkEnvelope s)) row = .ok
      { support_tick_id := row.support_tick_id,
        category := (kvs.lookup "category").getD (.str "Unknown"),
        tags := String.intercalate ", " (tagStrings (kvs.lookup "tags")),
        priority := (kvs.lookup "priority").getD (.str "Unknown"),
        suggested_eta := (kvs.lookup "suggested_eta").getD (.str "Unknown"),
        generated_reply := (kvs.lookup "generated_reply").getD (.str "No reply generated"),
        sentiment := (kvs.lookup "sentiment").getD (.str "Unknown") } ∧
    (kvs.lookup "tags" = none →
      String.intercalate ", " (tagStrings (kvs.lookup "tags")) = "") :=
  ⟨processRow_defaults loads _ row kvs (send_prompt_envelope_some loads s _ hl) hne htags,
   fun h => by rw [h]; rfl⟩

/-- Witness for C3 at a completion missing only the `tags` field: tags
defaults to the empty string, every other field is taken from the parsed
object, and the record is not an error sentinel. -/
theorem absent_fields_filled_with_defaults_witness :
    processRow (singleLoads "c3" (.obj fiveFieldsObj)) (.ok (mkEnvelope "c3"))
      { support_tick_id := "T1", support_ticket_text := "x" } = .ok
      { support_tick_id := "T1",
        category := .str "connectivity issues",
        tags := "",
        priority := .str "low",
        suggested_eta := .str "4 hours",
        generated_reply := .str "We can help",
        sentiment := .str "negative" } :=
  (absent_fields_filled_with_defaults (singleLoads "c3" (.obj fiveFieldsObj)) "c3"
    fiveFieldsObj _ rfl rfl rfl).1

/-- Counterexample to C3 as stated: the completion
`\x7b"error": "boom"\x7d` parses as a JSON object with all six expected
fields absent, yet the record is the Error sentinel — its category is
`"Error"`, not the documented default `"Unknown"`, and the row is treated
as an error. -/
theorem error_only_object_counterexample :
    (List.lookup "category" [(("error" : String), JVal.str "boom")] = none) ∧
    processRow (singleLoads "c3bad" (.obj [("error", .str "boom")])) (.ok (mkEnvelope "c3bad"))
      { support_tick_id := "T1", support_ticket_text := "x" } =
      .ok (errorRow "T1" (.str "boom")) ∧
    (errorRow "T1" (.str "boom")).category ≠ JVal.str "Unknown" := by
  refine ⟨rfl, rfl, ?_⟩
  intro h
  have h3 : JVal.str "Error" = JVal.str "Unknown" := h
  injection h3 with h4
  exact absurd h4 (by decide)

/-- C9 (amended): a malformed-JSON completion and a completion decoding to
a JSON object without an `'error'` key, with well-shaped tags and at least
one of the six expected fields absent, never produce records identical
across all six classification fields: the absent field carries its
`"Unknown"`-style default, which differs from the `"Error"`-style value of
the parse-failure sentinel at that field. -/
theorem sentinel_kinds_distinguishable (loads : String → Option JVal) (s s2 : String)
    (kvs : List (String × JVal)) (row row2 : TicketRow)
    (h1 : loads s = none)
    (h2 : loads s2 = some (.obj kvs))
    (hne : (kvs.any fun kv => kv.1 == "error") = false)
    (htags : tagsOk (kvs.lookup "tags") = true)
    (hmiss : kvs.lookup "category" = none ∨ kvs.lookup "tags" = none ∨
             kvs.lookup "priority" = none ∨ kvs.lookup "suggested_eta" = none ∨
             kvs.lookup "generated_reply" = none ∨ kvs.lookup "sentiment" = none) :
    ∃ r1 r2, processRow loads (.ok (mkEnvelope s)) row = .ok r1 ∧
      processRow loads (.ok (mkEnvelope s2)) row2 = .ok r2 ∧
      recordFields r1 ≠ recordFields r2 := by
  refine ⟨_, _,
    processRow_error_obj loads _ row _ (send_prompt_envelope_none loads s h1),
    processRow_defaults loads _ row2 kvs (send_prompt_envelope_some loads s2 _ h2) hne htags,
    ?_⟩
  intro heq
  have heq2 : (JVal.str "Error", ("Error" : String), JVal.str "Error", JVal.str "Error",
      JVal.str "Error decoding the model's JSON response.", JVal.str "Error") =
      ((kvs.lookup "category").getD (.str "Unknown"),
       String.intercalate ", " (tagStrings (kvs.lookup "tags")),
       (kvs.lookup "priority").getD (.str "Unknown"),
       (kvs.lookup "suggested_eta").getD (.str "Unknown"),
       (kvs.lookup "generated_reply").getD (.str "No reply generated"),
       (kvs.lookup "sentiment").getD (.str "Unknown")) := heq
  simp only [Prod.mk.injEq] at heq2
  rcases hmiss with h | h | h | h | h | h
  · rw [h] at heq2
    have h3 : JVal.str "Error" = JVal.str "Unknown" := heq2.1
    injection h3 with h4
    exact absurd h4 (by decide)
  · rw [h] at heq2
    have h3 : ("Error" : String) = "" := heq2.2.1
    exact absurd h3 (by decide)
  · rw [h] at heq2
    have h3 : JVal.str "Error" = JVal.str "Unknown" := heq2.2.2.1
    injection h3 with h4
    exact absurd h4 (by decide)
  · rw [h] at heq2
    have h3 : JVal.str "Error" = JVal.str "Unknown" := heq2.2.2.2.1
    injection h3 with h4
    exact absurd h4 (by decide)
  · rw [h] at heq2
    have h3 : JVal.str "Error decoding the model's JSON response." =
        JVal.str "No reply generated" := heq2.2.2.2.2.1
    injection h3 with h4
    exact absurd h4 (by decide)
  · rw [h] at heq2
    have h3 : JVal.str "Error" = JVal.str "Unknown" := heq2.2.2.2.2.2
    injection h3 with h4
    exact absurd h4 (by decide)

/-- Witness for C9: a malformed completion against an object holding only a
category — their records differ. -/
theorem sentinel_kinds_distinguishable_witness :
    ∃ r1 r2, processRow (singleLoads "obj9" (.obj [("category", JVal.str "x")]))
        (.ok (mkEnvelope "bad9"))
        { support_tick_id := "T1", support_ticket_text := "a" } = .ok r1 ∧
      processRow (singleLoads "obj9" (.obj [("category", JVal.str "x")]))
        (.ok (mkEnvelope "obj9"))
        { support_tick_id := "T2", support_ticket_text := "b" } = .ok r2 ∧
      recordFields r1 ≠ recordFields r2 :=
  sentinel_kinds_distinguishable (singleLoads "obj9" (.obj [("category", JVal.str "x")]))
    "bad9" "obj9" _ _ _ rfl rfl rfl rfl (Or.inr (Or.inl rfl))

/-- Counterexample to C9 as stated: the completion decoding to
`\x7b"error": "Error decoding the model's JSON response."\x7d` is valid
JSON with all six expected fields absent, yet its record coincides with the
record of a malformed-JSON completion on all six classification fields. -/
theorem identical_sentinels_counterexample :
    (List.lookup "category" c9obj = none) ∧
    processRow (singleLoads "c9" (.obj c9obj)) (.ok (mkEnvelope "bad"))
      { support_tick_id := "T1", support_ticket_text := "a" } =
      .ok (errorRow "T1" (.str "Error decoding the model's JSON response.")) ∧
    processRow (singleLoads "c9" (.obj c9obj)) (.ok (mkEnvelope "c9"))
      { support_tick_id := "T2", support_ticket_text := "b" } =
      .ok (errorRow "T2" (.str "Error decoding the model's JSON response.")) ∧
    recordFields (errorRow "T1" (.str "Error decoding the model's JSON response.")) =
      recordFields (errorRow "T2" (.str "Error decoding the model's JSON response.")) :=
  ⟨rfl, rfl, rfl, rfl⟩
